import Mathlib

/-!
Shallow embedding of the chat-ai-server backend (FastAPI application under
app/) for checking its natural-language specification.  Python dictionaries
are modelled as insertion-ordered association lists (update-in-place on an
existing key, append on a new key, exactly the observable behaviour of a
Python dict), datetime.now() as a natural-number clock threaded through each
operation (each now() call returns the clock and advances it), and exceptions
as Except / Option results.  All definitions are translated from the source
files; file and line references are given at each definition.
-/

deriving instance DecidableEq for Except

namespace ChatAI

/-! ### Python dict model (insertion-ordered association list) -/

/-- Lookup in a Python dict modelled as an association list: first (and, for
dicts, only) binding of the key. -/
def dget {α : Type} : List (String × α) → String → Option α
  | [], _ => none
  | (k, v) :: rest, key => if k = key then some v else dget rest key

/-- Assignment `d[key] = val` on a Python dict: replace the binding in place
if the key exists, else append a new binding at the end (insertion order). -/
def dset {α : Type} : List (String × α) → String → α → List (String × α)
  | [], key, val => [(key, val)]
  | (k, v) :: rest, key, val =>
    if k = key then (k, val) :: rest else (k, v) :: dset rest key val

/-- Deletion `del d[key]` on a Python dict: remove the binding of the key. -/
def dremove {α : Type} : List (String × α) → String → List (String × α)
  | [], _ => []
  | (k, v) :: rest, key => if k = key then rest else (k, v) :: dremove rest key

/-! ### JWT token service (app/utils/jwt_util.py, app/configs/jwt.py) -/

/-- JWTConfig.access_token_expire_minutes (app/configs/jwt.py line 10). -/
def access_token_expire_minutes : Nat := 30

/-- Decoded JWT payload: the dict passed to jwt.encode in create_access_token,
holding the optional "sub" claim and the "exp" claim (a Unix time in
seconds).  Signature validity is implicit in the shallow embedding: a value
of this type stands for a token signed with the process-wide secret; forged
or malformed tokens are outside the model (decoding them raises PyJWTError,
which get_current_user maps to the same credentials error as an expired
token). -/
structure TokenPayload where
  sub : Option String
  exp : Nat
deriving DecidableEq, Repr

/-- create_access_token (app/utils/jwt_util.py lines 9-34): copies the data,
computes expiry as now + access_token_expire_minutes (the timedelta of 30
minutes is truthy, so the 15-minute fallback branch is dead), and encodes.
`sub` is the "sub" entry of the data dict (the login endpoint passes the
username); `now` is datetime.now(timezone.utc) in seconds. -/
def create_access_token (sub : Option String) (now : Nat) : TokenPayload :=
  { sub := sub, exp := now + access_token_expire_minutes * 60 }

/-- Errors raised by jwt.decode, all subclasses of PyJWTError. -/
inductive JWTError where
  | ExpiredSignatureError
deriving DecidableEq, Repr

/-- decode_token (app/utils/jwt_util.py lines 36-47): jwt.decode verifies the
signature and the "exp" claim; with zero leeway PyJWT raises
ExpiredSignatureError when exp <= now, otherwise returns the payload. -/
def decode_token (token : TokenPayload) (now : Nat) : Except JWTError TokenPayload :=
  if token.exp ≤ now then .error .ExpiredSignatureError else .ok token

/-! ### User data model (app/models/user_model.py) -/

/-- User (app/models/user_model.py lines 32-40): public user fields; the
pydantic optionals default to None. -/
structure User where
  username : String
  email : Option String
  full_name : Option String
  disabled : Option Bool
deriving DecidableEq, Repr

/-- UserInDB (app/models/user_model.py lines 43-48): User plus the password
hash. -/
structure UserInDB where
  username : String
  email : Option String
  full_name : Option String
  disabled : Option Bool
  hashed_password : String
deriving DecidableEq, Repr

/-- UserUpdate (app/models/user_model.py lines 61-66). -/
structure UserUpdate where
  email : Option String
  full_name : Option String
deriving DecidableEq, Repr

/-- The user "database": the fake_users_db dict (app/dao/user_dao.py lines
9-18), mapping username to the stored record. -/
abbrev UserDB : Type := List (String × UserInDB)

/-- The default administrator record in fake_users_db (app/dao/user_dao.py
lines 10-17). -/
def rootRecord : UserInDB :=
  { username := "root"
    full_name := some "Administrator"
    email := some "root@163.com"
    hashed_password := "$2b$12$jiHSlVYQc72WrfBlB2/vX.70MMYdWpKCkdsKoEajvwMv5x9sHzwdq"
    disabled := some false }

/-- fake_users_db (app/dao/user_dao.py lines 9-18). -/
def fake_users_db : UserDB := [("root", rootRecord)]

/-! ### UserDAO (app/dao/user_dao.py) -/

/-- UserDAO.get_user (app/dao/user_dao.py lines 27-40): return the record for
the username or None. -/
def get_user (db : UserDB) (username : String) : Option UserInDB :=
  dget db username

/-- UserDAO.save_user (app/dao/user_dao.py lines 61-73): upsert the record
under its username and return it. -/
def save_user (db : UserDB) (user : UserInDB) : UserInDB × UserDB :=
  (user, dset db user.username user)

/-- UserDAO.update_user (app/dao/user_dao.py lines 42-59).  The source reads:
if user.email is not None then `current_user.username = user.email` (line 54
assigns the email to the username field); if user.full_name is not None then
`current_user.full_name = user.full_name`; then the record is stored under
`current_user.username` (which line 54 may have changed).  When the username
is absent from the db, get_user returns None and the attribute accesses on it
raise AttributeError, modelled as `none`. -/
def update_user (db : UserDB) (user : User) : Option (UserInDB × UserDB) :=
  match dget db user.username with
  | none => none
  | some cu0 =>
    let cu1 := match user.email with
      | some e => { cu0 with username := e }
      | none => cu0
    let cu2 := match user.full_name with
      | some f => { cu1 with full_name := f }
      | none => cu1
    some (cu2, dset db cu2.username cu2)

/-- UserDAO.delete_user (app/dao/user_dao.py lines 75-89): soft delete — set
disabled to True and store the record back under its username.  None (an
AttributeError in Python) when the username is absent. -/
def delete_user (db : UserDB) (username : String) : Option (UserInDB × UserDB) :=
  match dget db username with
  | none => none
  | some cu =>
    let cu2 := { cu with disabled := some true }
    some (cu2, dset db cu2.username cu2)

/-- UserDAO.list_user (app/dao/user_dao.py lines 91-99): returns the whole
dict. -/
def list_user (db : UserDB) : UserDB := db

/-! ### Auth guard (app/routers/user_router.py) -/

/-- HTTPException as raised by the routers: a status code and a detail
string. -/
structure HTTPException where
  statusCode : Nat
  detail : String
deriving DecidableEq, Repr

/-- The credentials_exception raised by get_current_user
(app/routers/user_router.py lines 78-82): 401, detail "Token 验证失败". -/
def credentials_exception : HTTPException :=
  { statusCode := 401, detail := "Token 验证失败" }

/-- get_current_user (app/routers/user_router.py lines 63-105): decode the
token (any PyJWTError, in particular expiry, becomes the credentials
exception), require a "sub" claim, and look the subject up in the user
database; a missing user is also the credentials exception. -/
def get_current_user (db : UserDB) (token : TokenPayload) (now : Nat) :
    Except HTTPException UserInDB :=
  match decode_token token now with
  | .error _ => .error credentials_exception
  | .ok payload =>
    match payload.sub with
    | none => .error credentials_exception
    | some username =>
      match get_user db username with
      | none => .error credentials_exception
      | some user => .ok user

/-- get_current_active_user (app/routers/user_router.py lines 108-124): the
guard on every protected route; rejects with 400 "无效用户" when
current_user.disabled is truthy (i.e. True; None and False are falsy). -/
def get_current_active_user (db : UserDB) (token : TokenPayload) (now : Nat) :
    Except HTTPException UserInDB :=
  match get_current_user db token now with
  | .error e => .error e
  | .ok current_user =>
    if current_user.disabled = some true then
      .error { statusCode := 400, detail := "无效用户" }
    else
      .ok current_user

/-- update_user_info (app/routers/user_router.py lines 258-278): overwrite
the email and full_name of the authenticated user object with the request
fields (unconditionally, None included) and call UserDAO.update_user with
it.  update_user reads only the username, email and full_name of its
argument, so the User projection of the mutated record is passed. -/
def update_user_info (db : UserDB) (current_user : UserInDB) (user_update : UserUpdate) :
    Option (UserInDB × UserDB) :=
  update_user db
    { username := current_user.username
      email := user_update.email
      full_name := user_update.full_name
      disabled := current_user.disabled }

/-- delete_user_account (app/routers/user_router.py lines 281-303): calls
UserDAO.delete_user on the authenticated username. -/
def delete_user_account (db : UserDB) (current_user : UserInDB) :
    Option (UserInDB × UserDB) :=
  delete_user db current_user.username

/-! ### Chat data model (app/models/chat_model.py) -/

/-- ChatMessage (app/models/chat_model.py lines 11-20); the timestamp is an
optional clock value. -/
structure ChatMessage where
  role : String
  content : String
  timestamp : Option Nat
deriving DecidableEq, Repr

/-- ChatRequest (app/models/chat_model.py lines 23-39).  model defaults to
some "qwen3-max" (DashScopeConfig.model_name) and stream to some false; the
temperature and max_tokens fields are forwarded verbatim to the provider and
never read by the modelled logic, so they are not carried here (temperature
is a float). -/
structure ChatRequest where
  messages : List ChatMessage
  model : Option String
  stream : Option Bool
deriving DecidableEq, Repr

/-- Token-usage statistics as returned by the provider (the fields of
response.usage that model_dump serialises). -/
structure Usage where
  prompt_tokens : Nat
  completion_tokens : Nat
  total_tokens : Nat
deriving DecidableEq, Repr

/-- ChatResponse (app/models/chat_model.py lines 42-54). -/
structure ChatResponse where
  message : ChatMessage
  model : String
  usage : Option Usage
deriving DecidableEq, Repr

/-- One streamed provider chunk's first choice: delta.content may be absent
(None). -/
structure Choice where
  deltaContent : Option String
deriving DecidableEq, Repr

/-- One chunk of the provider's streaming response (e.g. the final usage
chunk has an empty choices list). -/
structure Chunk where
  choices : List Choice
deriving DecidableEq, Repr

/-- One choice of a non-streaming provider response; message.content may be
None. -/
structure NSChoice where
  messageContent : Option String
deriving DecidableEq, Repr

/-- A non-streaming provider response (the openai ChatCompletion object read
by the chat endpoint: choices, model, usage). -/
structure NSCompletion where
  choices : List NSChoice
  model : String
  usage : Option Usage
deriving DecidableEq, Repr

/-- Behaviour of the provider's streaming iterator: either it yields a list
of chunks and terminates normally, or it yields the listed chunks and then
raises an exception with the given message. -/
inductive StreamOutcome where
  | ok (chunks : List Chunk)
  | err (chunks : List Chunk) (msg : String)
deriving DecidableEq, Repr

/-- One server-sent event written by generate_stream_response: either a
StreamResponse record (app/models/chat_model.py lines 57-71) or the ad-hoc
error record built in the except branch (app/routers/chat_router.py lines
148-152), which has an error string instead of content and no model field. -/
inductive SSEEvent where
  | fragment (content : String) (finished : Bool) (model : String) (timestamp : Nat)
  | error (error : String) (finished : Bool) (timestamp : Nat)
deriving DecidableEq, Repr

/-- The upstream call made while serving a chat request, recording the
payload handed to client.chat.completions.create (noCall when the request
failed before reaching the provider). -/
inductive UpstreamCall where
  | noCall
  | streamingCall (model : String) (payload : List (String × String))
  | completionCall (model : String) (payload : List (String × String))
deriving DecidableEq, Repr

/-! ### Chat router (app/routers/chat_router.py) -/

/-- The per-user chat history dict chatHistory (app/routers/chat_router.py
line 32): username to ordered message list. -/
abbrev HistoryMap : Type := List (String × List ChatMessage)

/-- convert_messages_for_api (app/routers/chat_router.py lines 45-60): each
message becomes its (role, content) pair, order preserved. -/
def convert_messages_for_api (messages : List ChatMessage) : List (String × String) :=
  messages.map (fun msg => (msg.role, msg.content))

/-- Message of the AttributeError raised by config.MODEL_NAME: DashScopeConfig
(app/configs/dash_scope.py) defines model_name but no MODEL_NAME attribute. -/
def attributeErrorMsg : String :=
  "\x27DashScopeConfig\x27 object has no attribute \x27MODEL_NAME\x27"

/-- Evaluation of the expression `request.model or config.MODEL_NAME`
(app/routers/chat_router.py lines 86, 111, 129, 232).  When request.model is
truthy (a non-empty string) it is the result; otherwise Python evaluates
config.MODEL_NAME, raising AttributeError. -/
def resolveModel (model : Option String) : Except String String :=
  match model with
  | some s =>
    if s = "" then .error attributeErrorMsg else .ok s
  | none => .error attributeErrorMsg

/-- Python truthiness test `chunk.choices and chunk.choices[0].delta.content`
(app/routers/chat_router.py line 100): the content of a content-bearing
chunk, none when the chunk has no choices or its first delta content is None
or empty. -/
def chunkContent (chunk : Chunk) : Option String :=
  match chunk.choices with
  | [] => none
  | choice :: _ =>
    match choice.deltaContent with
    | none => none
    | some s => if s = "" then none else some s

/-- The for-loop of generate_stream_response (app/routers/chat_router.py
lines 98-121): walk the chunks, and for each content-bearing one extend the
accumulator, emit a finished:false StreamResponse stamped with the current
clock (one datetime.now() call per event), and advance the clock.  Returns
the events, the final accumulator and the final clock. -/
def processChunks (model : String) : List Chunk → String → Nat → List SSEEvent × String × Nat
  | [], acc, clock => ([], acc, clock)
  | chunk :: rest, acc, clock =>
    match chunkContent chunk with
    | none => processChunks model rest acc clock
    | some s =>
      let r := processChunks model rest (acc ++ s) (clock + 1)
      (SSEEvent.fragment s false model clock :: r.1, r.2.1, r.2.2)

/-- Message of the KeyError raised by chatHistory[username] on a missing key
(Python renders the repr of the key, the name wrapped in single quotes). -/
def keyErrorMsg (username : String) : String := "\x27" ++ username ++ "\x27"

/-- generate_stream_response (app/routers/chat_router.py lines 63-155),
applied to the behaviour of the provider stream.  Inside the try block:
resolve the model (an AttributeError here is caught by the except branch and
becomes one error event), run the fragment loop, and on normal termination
with a non-empty accumulator build the finished:true sentinel (one now()
call), append the assistant message (a second now() call) to
chatHistory[username], and emit the sentinel; an empty accumulator yields
nothing further.  If the provider raises after its listed chunks, the except
branch emits a single error record with the error string, finished true and
a timestamp.  A missing history key at the append (impossible via the chat
endpoint, which initialises it) raises KeyError, likewise caught by the
except branch.  Returns the emitted events, the updated history, the final
clock and the upstream call made. -/
def generate_stream_response (request : ChatRequest) (username : String)
    (outcome : StreamOutcome) (hist : HistoryMap) (clock : Nat) :
    List SSEEvent × HistoryMap × Nat × UpstreamCall :=
  match resolveModel request.model with
  | .error e => ([.error e true clock], hist, clock + 1, .noCall)
  | .ok model =>
    let payload := convert_messages_for_api request.messages
    match outcome with
    | .ok chunks =>
      let r := processChunks model chunks "" clock
      let evs := r.1
      let accumulated_content := r.2.1
      let c1 := r.2.2
      if accumulated_content = "" then
        (evs, hist, c1, .streamingCall model payload)
      else
        match dget hist username with
        | none =>
          (evs ++ [.error (keyErrorMsg username) true (c1 + 1)], hist, c1 + 2,
           .streamingCall model payload)
        | some log =>
          (evs ++ [.fragment "" true model c1],
           dset hist username
             (log ++ [{ role := "assistant", content := accumulated_content,
                        timestamp := some (c1 + 1) }]),
           c1 + 2, .streamingCall model payload)
    | .err chunks msg =>
      let r := processChunks model chunks "" clock
      (r.1 ++ [.error msg true r.2.2], hist, r.2.2 + 1, .streamingCall model payload)

/-- Initialisation of chatHistory[username] when absent
(app/routers/chat_router.py lines 197-198). -/
def ensureKey (hist : HistoryMap) (username : String) : HistoryMap :=
  match dget hist username with
  | none => dset hist username ([] : List ChatMessage)
  | some _ => hist

/-- The value returned by the chat endpoint on success: a StreamingResponse
(identified with the full event sequence its generator produces) or a
ChatResponse. -/
inductive ChatResult where
  | streamed (events : List SSEEvent)
  | completed (response : ChatResponse)
deriving DecidableEq, Repr

/-- The detail string of the generic `except Exception` handler of the chat
endpoint (app/routers/chat_router.py lines 269-272). -/
def pyErrorDetail (e : String) : String := "处理聊天请求时发生错误: " ++ e

/-- str() of the IndexError raised by request.messages[-1] on an empty
list. -/
def indexErrorMsg : String := "list index out of range"

/-- chat (app/routers/chat_router.py lines 162-272), for an already
authenticated username.  The provider's behaviour is supplied for both call
shapes (streamBehavior for the stream=True call, completeBehavior for the
stream=False call, where .error is an exception raised by create); only the
one actually performed is consulted.  Steps, mirroring the source: initialise
chatHistory[username] if absent; read request.messages[-1] (IndexError on an
empty list reaches the generic handler as a 500); append the user message (a
now() call); then either return the streaming response driven by
generate_stream_response, or perform the non-streaming call — model
resolution first (AttributeError → 500), then provider exception → 500,
empty choices → 500 "AI模型返回了空响应", otherwise append the assistant
message (a now() call) and return the ChatResponse.  Returns the result or
HTTPException, the final history, the final clock and the upstream call
made. -/
def chat (request : ChatRequest) (username : String)
    (streamBehavior : StreamOutcome) (completeBehavior : Except String NSCompletion)
    (hist : HistoryMap) (clock : Nat) :
    Except HTTPException ChatResult × HistoryMap × Nat × UpstreamCall :=
  let hist1 := ensureKey hist username
  match request.messages.getLast? with
  | none =>
    (.error { statusCode := 500, detail := pyErrorDetail indexErrorMsg },
     hist1, clock, .noCall)
  | some lastMsg =>
    let user_message : ChatMessage :=
      { role := lastMsg.role, content := lastMsg.content, timestamp := some clock }
    let hist2 := dset hist1 username ((dget hist1 username).getD [] ++ [user_message])
    let c1 := clock + 1
    if request.stream = some true then
      let r := generate_stream_response request username streamBehavior hist2 c1
      (.ok (.streamed r.1), r.2.1, r.2.2.1, r.2.2.2)
    else
      match resolveModel request.model with
      | .error e =>
        (.error { statusCode := 500, detail := pyErrorDetail e }, hist2, c1, .noCall)
      | .ok model =>
        let payload := convert_messages_for_api request.messages
        match completeBehavior with
        | .error e =>
          (.error { statusCode := 500, detail := pyErrorDetail e }, hist2, c1,
           .completionCall model payload)
        | .ok response =>
          match response.choices with
          | [] =>
            (.error { statusCode := 500, detail := "AI模型返回了空响应" }, hist2, c1,
             .completionCall model payload)
          | choice0 :: _ =>
            let assistant_message : ChatMessage :=
              { role := "assistant", content := choice0.messageContent.getD "",
                timestamp := some c1 }
            let hist3 := dset hist2 username
              ((dget hist2 username).getD [] ++ [assistant_message])
            (.ok (.completed { message := assistant_message, model := response.model,
                               usage := response.usage }),
             hist3, c1 + 1, .completionCall model payload)

/-- get_user_history (app/routers/chat_router.py lines 311-343): the empty
list when the user has no entry, else a fresh copy of each stored message in
order. -/
def get_user_history (hist : HistoryMap) (username : String) : List ChatMessage :=
  match dget hist username with
  | none => []
  | some msgs =>
    msgs.map (fun msg =>
      { role := msg.role, content := msg.content, timestamp := msg.timestamp })

/-- The response dict of clear_user_history (message, user, deleted_messages,
timestamp). -/
structure ClearResult where
  message : String
  user : String
  deleted_messages : Nat
  timestamp : Nat
deriving DecidableEq, Repr

/-- clear_user_history (app/routers/chat_router.py lines 346-386): when the
user has an entry, record its length, delete the entry and report the count;
otherwise report zero deletions and leave the map unchanged. -/
def clear_user_history (hist : HistoryMap) (username : String) (clock : Nat) :
    ClearResult × HistoryMap :=
  match dget hist username with
  | some msgs =>
    ({ message := "聊天历史已清空", user := username,
       deleted_messages := msgs.length, timestamp := clock },
     dremove hist username)
  | none =>
    ({ message := "用户没有聊天历史", user := username,
       deleted_messages := 0, timestamp := clock },
     hist)

/-- The append pathway into a user's conversation log as the chat endpoint
performs it (app/routers/chat_router.py lines 196-206): create the entry if
absent, then list-append the message.  Used to state properties over
sequences of appended messages. -/
def appendToLog (hist : HistoryMap) (username : String) (msg : ChatMessage) : HistoryMap :=
  let h1 := ensureKey hist username
  dset h1 username ((dget h1 username).getD [] ++ [msg])

/-! ### Derived forms used in theorem statements -/

/-- The contents of the content-bearing chunks of a stream, in order. -/
def fragmentContents (chunks : List Chunk) : List String :=
  chunks.filterMap chunkContent

/-- Concatenation of a list of strings (the accumulator built by the
fragment loop). -/
def concatAll : List String → String
  | [] => ""
  | s :: rest => s ++ concatAll rest

/-- The finished:false events the relay emits for the given fragment
contents, starting at the given clock. -/
def fragmentEvents (model : String) : List String → Nat → List SSEEvent
  | [], _ => []
  | s :: rest, clock =>
    SSEEvent.fragment s false model clock :: fragmentEvents model rest (clock + 1)

/-! ### Dictionary lemmas -/

theorem dget_dset_self {α : Type} (m : List (String × α)) (k : String) (v : α) :
    dget (dset m k v) k = some v := by
  induction m with
  | nil => simp [dget, dset]
  | cons p rest ih =>
    obtain ⟨k0, v0⟩ := p
    by_cases h : k0 = k <;> simp [dget, dset, h, ih]

theorem dget_dset_ne {α : Type} (m : List (String × α)) (k k' : String) (v : α)
    (h : k' ≠ k) : dget (dset m k v) k' = dget m k' := by
  induction m with
  | nil => simp [dget, dset, Ne.symm h]
  | cons p rest ih =>
    obtain ⟨k0, v0⟩ := p
    by_cases h0 : k0 = k
    · subst h0
      simp [dget, dset, Ne.symm h]
    · by_cases h1 : k0 = k' <;> simp [dget, dset, h0, h1, h, ih]

theorem dset_of_dget_none {α : Type} (m : List (String × α)) (k : String) (v : α)
    (h : dget m k = none) : dset m k v = m ++ [(k, v)] := by
  induction m with
  | nil => simp [dset]
  | cons p rest ih =>
    obtain ⟨k0, v0⟩ := p
    by_cases h0 : k0 = k
    · simp [dget, h0] at h
    · simp [dget, h0] at h
      simp [dset, h0, ih h]

theorem dget_append_single {α : Type} (m : List (String × α)) (k : String) (v : α)
    (h : dget m k = none) : dget (m ++ [(k, v)]) k = some v := by
  induction m with
  | nil => simp [dget]
  | cons p rest ih =>
    obtain ⟨k0, v0⟩ := p
    by_cases h0 : k0 = k
    · simp [dget, h0] at h
    · simp [dget, h0] at h
      simp [dget, h0, ih h]

theorem dset_append_single {α : Type} (m : List (String × α)) (k : String) (v w : α)
    (h : dget m k = none) : dset (m ++ [(k, v)]) k w = m ++ [(k, w)] := by
  induction m with
  | nil => simp [dset]
  | cons p rest ih =>
    obtain ⟨k0, v0⟩ := p
    by_cases h0 : k0 = k
    · simp [dget, h0] at h
    · simp [dget, h0] at h
      simp [dset, h0, ih h]

theorem dremove_append_single {α : Type} (m : List (String × α)) (k : String) (v : α)
    (h : dget m k = none) : dremove (m ++ [(k, v)]) k = m := by
  induction m with
  | nil => simp [dremove]
  | cons p rest ih =>
    obtain ⟨k0, v0⟩ := p
    by_cases h0 : k0 = k
    · simp [dget, h0] at h
    · simp [dget, h0] at h
      simp [dremove, h0, ih h]

theorem dget_ensureKey_self (hist : HistoryMap) (username : String) :
    dget (ensureKey hist username) username = some ((dget hist username).getD []) := by
  unfold ensureKey
  cases h : dget hist username <;> simp [h, dget_dset_self]

theorem dget_appendToLog_self (hist : HistoryMap) (username : String) (msg : ChatMessage) :
    dget (appendToLog hist username msg) username =
      some ((dget hist username).getD [] ++ [msg]) := by
  unfold appendToLog
  rw [dget_dset_self, dget_ensureKey_self]
  simp

/-! ### Stream-loop characterisation -/

theorem processChunks_eq (model : String) (chunks : List Chunk) (acc : String) (clock : Nat) :
    processChunks model chunks acc clock =
      (fragmentEvents model (fragmentContents chunks) clock,
       acc ++ concatAll (fragmentContents chunks),
       clock + (fragmentContents chunks).length) := by
  induction chunks generalizing acc clock with
  | nil => simp [processChunks, fragmentContents, fragmentEvents, concatAll]
  | cons c rest ih =>
    cases h : chunkContent c with
    | none =>
      simp [processChunks, h, fragmentContents, List.filterMap_cons, ih]
    | some s =>
      simp only [processChunks, h]
      rw [ih]
      simp only [fragmentContents, List.filterMap_cons, h, fragmentEvents, concatAll,
        List.length_cons, Prod.mk.injEq]
      refine ⟨trivial, ?_, ?_⟩
      · rw [String.append_assoc]
      · omega

theorem mem_fragmentContents_ne_empty {chunks : List Chunk} {s : String}
    (h : s ∈ fragmentContents chunks) : s ≠ "" := by
  unfold fragmentContents at h
  rw [List.mem_filterMap] at h
  obtain ⟨c, _, hc⟩ := h
  obtain ⟨choices⟩ := c
  cases choices with
  | nil => simp [chunkContent] at hc
  | cons ch rest =>
    cases hd : ch.deltaContent with
    | none => simp [chunkContent, hd] at hc
    | some t =>
      by_cases ht : t = ""
      · simp [chunkContent, hd, ht] at hc
      · simp [chunkContent, hd, ht] at hc
        exact hc ▸ ht

theorem string_append_ne_empty (a b : String) (h : a ≠ "") : a ++ b ≠ "" := by
  intro hc
  have hdata := congrArg String.data hc
  simp [String.data_append] at hdata
  exact h (String.ext hdata.1)

theorem concatAll_ne_empty {l : List String} (hne : l ≠ [])
    (h : ∀ s ∈ l, s ≠ "") : concatAll l ≠ "" := by
  cases l with
  | nil => exact absurd rfl hne
  | cons s rest =>
    exact string_append_ne_empty s (concatAll rest) (h s (by simp))

theorem resolveModel_ok {model : Option String} {m : String}
    (hm : model = some m) (hm2 : m ≠ "") : resolveModel model = .ok m := by
  simp [resolveModel, hm, hm2]

theorem ensureKey_of_dget_some {hist : HistoryMap} {username : String}
    {l : List ChatMessage} (h : dget hist username = some l) :
    ensureKey hist username = hist := by
  simp [ensureKey, h]

theorem appendToLog_of_dget_some {hist : HistoryMap} {username : String}
    {l : List ChatMessage} (h : dget hist username = some l) (msg : ChatMessage) :
    appendToLog hist username msg = dset hist username (l ++ [msg]) := by
  simp [appendToLog, ensureKey_of_dget_some h, h]

theorem copy_map_id (msgs : List ChatMessage) :
    msgs.map (fun msg =>
      ({ role := msg.role, content := msg.content, timestamp := msg.timestamp } :
        ChatMessage)) = msgs := by
  induction msgs with
  | nil => rfl
  | cons m rest ih => rw [List.map_cons, ih]

theorem foldl_appendToLog_aux (hist : HistoryMap) (username : String)
    (h : dget hist username = none) (msgs : List ChatMessage) (l : List ChatMessage) :
    msgs.foldl (fun acc msg => appendToLog acc username msg) (hist ++ [(username, l)]) =
      hist ++ [(username, l ++ msgs)] := by
  induction msgs generalizing l with
  | nil => simp
  | cons m rest ih =>
    rw [List.foldl_cons,
      appendToLog_of_dget_some (dget_append_single hist username l h) m,
      dset_append_single hist username l (l ++ [m]) h, ih (l ++ [m])]
    simp

theorem foldl_appendToLog_fresh (hist : HistoryMap) (username : String)
    (h : dget hist username = none) (m : ChatMessage) (rest : List ChatMessage) :
    (m :: rest).foldl (fun acc msg => appendToLog acc username msg) hist =
      hist ++ [(username, m :: rest)] := by
  have h1 : appendToLog hist username m = hist ++ [(username, [m])] := by
    unfold appendToLog ensureKey
    rw [h]
    simp only [dset_of_dget_none hist username ([] : List ChatMessage) h,
      dget_append_single hist username ([] : List ChatMessage) h, Option.getD_some]
    simpa using dset_append_single hist username [] [m] h
  rw [List.foldl_cons, h1, foldl_appendToLog_aux hist username h rest [m]]
  simp

/-! ### Claim theorems -/

/-- Claim C1: when the upstream stream delivers content-bearing fragments and
terminates normally, the relay emits one finished:false event per fragment
with exactly that fragment's content, in upstream order, appends exactly one
assistant message whose content is the concatenation of all fragment
contents to the authenticated user's log, and emits exactly one
finished:true sentinel with empty content as the final event. -/
theorem stream_relay_normal_completion
    (request : ChatRequest) (username : String) (chunks : List Chunk)
    (hist : HistoryMap) (log : List ChatMessage) (clock : Nat) (m : String)
    (hm : request.model = some m) (hm2 : m ≠ "")
    (hlog : dget hist username = some log)
    (hfrag : fragmentContents chunks ≠ []) :
    generate_stream_response request username (.ok chunks) hist clock =
      (fragmentEvents m (fragmentContents chunks) clock ++
         [SSEEvent.fragment "" true m (clock + (fragmentContents chunks).length)],
       dset hist username
         (log ++ [{ role := "assistant", content := concatAll (fragmentContents chunks),
                    timestamp := some (clock + (fragmentContents chunks).length + 1) }]),
       clock + (fragmentContents chunks).length + 2,
       .streamingCall m (convert_messages_for_api request.messages)) := by
  have hacc : concatAll (fragmentContents chunks) ≠ "" :=
    concatAll_ne_empty hfrag (fun _ hs => mem_fragmentContents_ne_empty hs)
  unfold generate_stream_response
  rw [resolveModel_ok hm hm2]
  simp only [processChunks_eq, String.empty_append, hlog, if_neg hacc]

/-- Witness for C1: the spec's example — fragments "Hi" and " there" then a
choice-less usage chunk and normal termination yield the two finished:false
events, one assistant message "Hi there" in the log, and the sentinel. -/
theorem stream_relay_normal_completion_witness :
    fragmentContents [⟨[⟨some "Hi"⟩]⟩, ⟨[⟨some " there"⟩]⟩, ⟨[]⟩] ≠ [] ∧
    generate_stream_response
        { messages := [{ role := "user", content := "hello", timestamp := none }],
          model := some "qwen3-max", stream := some true }
        "alice"
        (.ok [⟨[⟨some "Hi"⟩]⟩, ⟨[⟨some " there"⟩]⟩, ⟨[]⟩])
        [("alice", [])] 0 =
      ([SSEEvent.fragment "Hi" false "qwen3-max" 0,
        SSEEvent.fragment " there" false "qwen3-max" 1,
        SSEEvent.fragment "" true "qwen3-max" 2],
       [("alice", [{ role := "assistant", content := "Hi there", timestamp := some 3 }])],
       4,
       .streamingCall "qwen3-max" [("user", "hello")]) :=
  ⟨by decide, by
    have h := stream_relay_normal_completion
      { messages := [{ role := "user", content := "hello", timestamp := none }],
        model := some "qwen3-max", stream := some true }
      "alice" [⟨[⟨some "Hi"⟩]⟩, ⟨[⟨some " there"⟩]⟩, ⟨[]⟩]
      [("alice", [])] [] 0 "qwen3-max" rfl (by decide) rfl (by decide)
    exact h.trans (by decide)⟩

/-- Claim C2: when the upstream stream raises at any point during iteration,
the relay emits the finished:false events for the fragments delivered before
the failure, then exactly one error event carrying the error description,
finished:true and a timestamp, and leaves the conversation log unchanged —
no assistant message, not even the partially accumulated content, is
appended. -/
theorem stream_relay_error_no_append
    (request : ChatRequest) (username : String) (chunks : List Chunk) (emsg : String)
    (hist : HistoryMap) (clock : Nat) (m : String)
    (hm : request.model = some m) (hm2 : m ≠ "") :
    generate_stream_response request username (.err chunks emsg) hist clock =
      (fragmentEvents m (fragmentContents chunks) clock ++
         [SSEEvent.error emsg true (clock + (fragmentContents chunks).length)],
       hist,
       clock + (fragmentContents chunks).length + 1,
       .streamingCall m (convert_messages_for_api request.messages)) := by
  unfold generate_stream_response
  rw [resolveModel_ok hm hm2]
  simp only [processChunks_eq]

/-- Witness for C2: the spec's example — a stream that raises after one
fragment yields one finished:false event then one error event with
finished:true, and the log (holding the user turn) is unchanged. -/
theorem stream_relay_error_no_append_witness :
    generate_stream_response
        { messages := [{ role := "user", content := "hello", timestamp := none }],
          model := some "qwen3-max", stream := some true }
        "alice"
        (.err [⟨[⟨some "Hi"⟩]⟩] "upstream connection reset")
        [("alice", [{ role := "user", content := "hello", timestamp := some 0 }])] 1 =
      ([SSEEvent.fragment "Hi" false "qwen3-max" 1,
        SSEEvent.error "upstream connection reset" true 2],
       [("alice", [{ role := "user", content := "hello", timestamp := some 0 }])],
       3,
       .streamingCall "qwen3-max" [("user", "hello")]) :=
  by
    have h := stream_relay_error_no_append
      { messages := [{ role := "user", content := "hello", timestamp := none }],
        model := some "qwen3-max", stream := some true }
      "alice" [⟨[⟨some "Hi"⟩]⟩] "upstream connection reset"
      [("alice", [{ role := "user", content := "hello", timestamp := some 0 }])]
      1 "qwen3-max" rfl (by decide)
    exact h.trans (by decide)

/-- Claim C10: when the upstream stream terminates normally without any
content-bearing fragment, the relay emits no events at all — in particular
no finished:true sentinel — and leaves the conversation log unchanged. -/
theorem stream_relay_empty_stream
    (request : ChatRequest) (username : String) (chunks : List Chunk)
    (hist : HistoryMap) (clock : Nat) (m : String)
    (hm : request.model = some m) (hm2 : m ≠ "")
    (hfrag : fragmentContents chunks = []) :
    generate_stream_response request username (.ok chunks) hist clock =
      ([], hist, clock, .streamingCall m (convert_messages_for_api request.messages)) := by
  unfold generate_stream_response
  rw [resolveModel_ok hm hm2]
  simp [processChunks_eq, hfrag, fragmentEvents, concatAll]

/-- Witness for C10: a stream made only of a choice-less chunk, a None delta
and an empty-string delta produces no events and no history change. -/
theorem stream_relay_empty_stream_witness :
    fragmentContents [⟨[]⟩, ⟨[⟨none⟩]⟩, ⟨[⟨some ""⟩]⟩] = [] ∧
    generate_stream_response
        { messages := [{ role := "user", content := "hello", timestamp := none }],
          model := some "qwen3-max", stream := some true }
        "alice"
        (.ok [⟨[]⟩, ⟨[⟨none⟩]⟩, ⟨[⟨some ""⟩]⟩])
        [("alice", [{ role := "user", content := "hello", timestamp := some 0 }])] 1 =
      ([],
       [("alice", [{ role := "user", content := "hello", timestamp := some 0 }])],
       1,
       .streamingCall "qwen3-max" [("user", "hello")]) :=
  ⟨by decide, by
    have h := stream_relay_empty_stream
      { messages := [{ role := "user", content := "hello", timestamp := none }],
        model := some "qwen3-max", stream := some true }
      "alice" [⟨[]⟩, ⟨[⟨none⟩]⟩, ⟨[⟨some ""⟩]⟩]
      [("alice", [{ role := "user", content := "hello", timestamp := some 0 }])]
      1 "qwen3-max" rfl (by decide) (by decide)
    exact h.trans (by decide)⟩

/-- Claim C4: a token issued at time T embeds the subject and the expiry
T plus the fixed 30-minute TTL; verification succeeds and returns the same
subject at any time strictly before T+30min, and fails with the expiry error
at any time after T+30min. -/
theorem token_issue_verify_ttl (sub : String) (T t : Nat) :
    (create_access_token (some sub) T).sub = some sub ∧
    (create_access_token (some sub) T).exp = T + access_token_expire_minutes * 60 ∧
    (t < T + access_token_expire_minutes * 60 →
      decode_token (create_access_token (some sub) T) t =
        .ok (create_access_token (some sub) T)) ∧
    (T + access_token_expire_minutes * 60 < t →
      decode_token (create_access_token (some sub) T) t =
        .error .ExpiredSignatureError) := by
  refine ⟨rfl, rfl, ?_, ?_⟩
  · intro h
    unfold decode_token create_access_token
    rw [if_neg (by simp only []; omega)]
  · intro h
    unfold decode_token create_access_token
    rw [if_pos (by simp only []; omega)]

/-- Witness for C4: the spec's example — a token issued at T=0 with the
30-minute TTL verifies at T+29min and fails as expired at T+31min. -/
theorem token_issue_verify_ttl_witness :
    (29 * 60 < 0 + access_token_expire_minutes * 60 ∧
      decode_token (create_access_token (some "root") 0) (29 * 60) =
        .ok (create_access_token (some "root") 0)) ∧
    (0 + access_token_expire_minutes * 60 < 31 * 60 ∧
      decode_token (create_access_token (some "root") 0) (31 * 60) =
        .error .ExpiredSignatureError) :=
  ⟨⟨by decide, (token_issue_verify_ttl "root" 0 (29 * 60)).2.2.1 (by decide)⟩,
   ⟨by decide, (token_issue_verify_ttl "root" 0 (31 * 60)).2.2.2 (by decide)⟩⟩

/-- Claim C5: for a user record with disabled = true, the guard chain
get_current_user then get_current_active_user rejects with the 400 "无效用户"
error even when the token is unexpired, carries that user as subject, and
(being a well-formed payload in this model) has a valid signature. -/
theorem disabled_user_rejected (db : UserDB) (username : String) (u : UserInDB)
    (token : TokenPayload) (now : Nat)
    (hu : dget db username = some u) (hd : u.disabled = some true)
    (hsub : token.sub = some username) (hexp : now < token.exp) :
    get_current_active_user db token now =
      .error { statusCode := 400, detail := "无效用户" } := by
  unfold get_current_active_user get_current_user decode_token get_user
  rw [if_neg (by omega)]
  simp only [hsub, hu, hd, if_true]

/-- Witness for C5: a disabled account is rejected with 400 even though its
token verifies. -/
theorem disabled_user_rejected_witness :
    dget [("bob", ({ username := "bob", email := none, full_name := none,
                     disabled := some true, hashed_password := "h" } : UserInDB))] "bob" =
      some { username := "bob", email := none, full_name := none,
             disabled := some true, hashed_password := "h" } ∧
    (5 : Nat) < 1800 ∧
    get_current_active_user
        [("bob", { username := "bob", email := none, full_name := none,
                   disabled := some true, hashed_password := "h" })]
        { sub := some "bob", exp := 1800 } 5 =
      .error { statusCode := 400, detail := "无效用户" } :=
  ⟨by decide, by decide,
   disabled_user_rejected
     [("bob", { username := "bob", email := none, full_name := none,
                disabled := some true, hashed_password := "h" })]
     "bob"
     { username := "bob", email := none, full_name := none,
       disabled := some true, hashed_password := "h" }
     { sub := some "bob", exp := 1800 } 5 (by decide) (by decide) (by decide) (by decide)⟩

/-- Claim C3 fails on the code: update_user (app/dao/user_dao.py line 54)
writes the new email into the username field of the fetched record and then
stores that record under the new username (the email), so an email update
leaves the record under the original username entirely unchanged (the new
email is lost there) and inserts a duplicate record keyed by the email whose
username field is the email address and whose email field still holds the
old address.  Evaluated here at the stock database: updating root's email to
"new@mail.com" yields exactly that outcome. -/
theorem update_user_email_bug :
    update_user_info fake_users_db rootRecord
        { email := some "new@mail.com", full_name := none } =
      some ({ rootRecord with username := "new@mail.com" },
            [("root", rootRecord),
             ("new@mail.com", { rootRecord with username := "new@mail.com" })]) ∧
    ({ rootRecord with username := "new@mail.com" } : UserInDB).email =
      some "root@163.com" ∧
    dget [("root", rootRecord),
          ("new@mail.com", { rootRecord with username := "new@mail.com" })] "root" =
      some rootRecord := by
  refine ⟨by decide, rfl, by decide⟩

/-- Claim C8: account deletion is a soft delete — the record stays in the
store under its username with disabled set to true and every other field
unchanged, it still appears in the list-all result, other records are
untouched, and no key is ever removed from the store. -/
theorem soft_delete_preserves_record (db : UserDB) (current_user u : UserInDB)
    (hu : dget db current_user.username = some u)
    (hk : u.username = current_user.username) :
    delete_user_account db current_user =
      some ({ u with disabled := some true },
            dset db current_user.username { u with disabled := some true }) ∧
    dget (dset db current_user.username { u with disabled := some true })
        current_user.username = some { u with disabled := some true } ∧
    dget (list_user (dset db current_user.username { u with disabled := some true }))
        current_user.username = some { u with disabled := some true } ∧
    (∀ k, k ≠ current_user.username →
      dget (dset db current_user.username { u with disabled := some true }) k =
        dget db k) ∧
    (∀ k, (dget db k).isSome →
      (dget (dset db current_user.username { u with disabled := some true}) k).isSome) := by
  refine ⟨?_, dget_dset_self .., dget_dset_self .., ?_, ?_⟩
  · unfold delete_user_account delete_user
    rw [hu]
    simp only [hk]
  · intro k hne
    exact dget_dset_ne db current_user.username k _ hne
  · intro k hsome
    by_cases hke : k = current_user.username
    · subst hke
      rw [dget_dset_self]
      exact Option.isSome_some
    · rw [dget_dset_ne db current_user.username k _ hke]
      exact hsome

/-- Claim C7: starting from a user with no log, appending any sequence of
messages (user and assistant turns alike) through the store's append pathway
makes getHistory return exactly those messages in append order (and
getHistory is empty beforehand); clear then reports exactly that many
removed messages and a subsequent getHistory is empty; clear on a user with
no log reports zero. -/
theorem history_append_get_clear (hist : HistoryMap) (username : String)
    (msgs : List ChatMessage) (clock : Nat)
    (hfresh : dget hist username = none) :
    get_user_history hist username = [] ∧
    get_user_history
        (msgs.foldl (fun acc msg => appendToLog acc username msg) hist) username =
      msgs ∧
    (clear_user_history
        (msgs.foldl (fun acc msg => appendToLog acc username msg) hist)
        username clock).1.deleted_messages = msgs.length ∧
    get_user_history
        (clear_user_history
          (msgs.foldl (fun acc msg => appendToLog acc username msg) hist)
          username clock).2 username = [] ∧
    (clear_user_history hist username clock).1.deleted_messages = 0 := by
  refine ⟨by simp [get_user_history, hfresh], ?_, ?_, ?_,
    by simp [clear_user_history, hfresh]⟩ <;>
  · cases msgs with
    | nil =>
      simp [get_user_history, clear_user_history, hfresh]
    | cons m rest =>
      rw [foldl_appendToLog_fresh hist username hfresh m rest]
      simp [get_user_history, clear_user_history,
        dget_append_single hist username (m :: rest) hfresh,
        dremove_append_single hist username (m :: rest) hfresh,
        hfresh, copy_map_id]

/-- Witness for C7: three messages appended for a fresh user are returned in
order; clear reports three and empties the history. -/
theorem history_append_get_clear_witness :
    dget ([] : HistoryMap) "alice" = none ∧
    (get_user_history ([] : HistoryMap) "alice" = [] ∧
     get_user_history
        ([({ role := "user", content := "q1", timestamp := some 0 } : ChatMessage),
          { role := "assistant", content := "a1", timestamp := some 1 },
          { role := "user", content := "q2", timestamp := some 2 }].foldl
          (fun acc msg => appendToLog acc "alice" msg) ([] : HistoryMap)) "alice" =
       [({ role := "user", content := "q1", timestamp := some 0 } : ChatMessage),
        { role := "assistant", content := "a1", timestamp := some 1 },
        { role := "user", content := "q2", timestamp := some 2 }] ∧
     (clear_user_history
        ([({ role := "user", content := "q1", timestamp := some 0 } : ChatMessage),
          { role := "assistant", content := "a1", timestamp := some 1 },
          { role := "user", content := "q2", timestamp := some 2 }].foldl
          (fun acc msg => appendToLog acc "alice" msg) ([] : HistoryMap))
        "alice" 7).1.deleted_messages =
       [({ role := "user", content := "q1", timestamp := some 0 } : ChatMessage),
        { role := "assistant", content := "a1", timestamp := some 1 },
        { role := "user", content := "q2", timestamp := some 2 }].length ∧
     get_user_history
        (clear_user_history
          ([({ role := "user", content := "q1", timestamp := some 0 } : ChatMessage),
            { role := "assistant", content := "a1", timestamp := some 1 },
            { role := "user", content := "q2", timestamp := some 2 }].foldl
            (fun acc msg => appendToLog acc "alice" msg) ([] : HistoryMap))
          "alice" 7).2 "alice" = [] ∧
     (clear_user_history ([] : HistoryMap) "alice" 7).1.deleted_messages = 0) :=
  ⟨by decide,
   history_append_get_clear [] "alice"
     [{ role := "user", content := "q1", timestamp := some 0 },
      { role := "assistant", content := "a1", timestamp := some 1 },
      { role := "user", content := "q2", timestamp := some 2 }] 7 (by decide)⟩

theorem gsr_log_effect (request : ChatRequest) (username : String)
    (outcome : StreamOutcome) (hist : HistoryMap) (clock : Nat) (l : List ChatMessage)
    (hl : dget hist username = some l) :
    (∃ tail,
      dget (generate_stream_response request username outcome hist clock).2.1 username =
        some (l ++ tail) ∧
      (tail = [] ∨ ∃ c ts, tail =
        [{ role := "assistant", content := c, timestamp := some ts }])) ∧
    ((generate_stream_response request username outcome hist clock).2.2.2 = .noCall ∨
     ∃ mdl, (generate_stream_response request username outcome hist clock).2.2.2 =
       .streamingCall mdl (convert_messages_for_api request.messages)) := by
  rcases outcome with chunks | ⟨chunks, emsg⟩
  · unfold generate_stream_response
    split
    · exact ⟨⟨[], by simp [hl], Or.inl rfl⟩, Or.inl rfl⟩
    · simp only [processChunks_eq, String.empty_append]
      by_cases hacc : concatAll (fragmentContents chunks) = ""
      · rw [if_pos hacc]
        exact ⟨⟨[], by simp [hl], Or.inl rfl⟩, Or.inr ⟨_, rfl⟩⟩
      · rw [if_neg hacc]
        simp only [hl]
        exact ⟨⟨[{ role := "assistant", content := concatAll (fragmentContents chunks),
                   timestamp := some (clock + (fragmentContents chunks).length + 1) }],
          by rw [dget_dset_self], Or.inr ⟨_, _, rfl⟩⟩, Or.inr ⟨_, rfl⟩⟩
  · unfold generate_stream_response
    split
    · exact ⟨⟨[], by simp [hl], Or.inl rfl⟩, Or.inl rfl⟩
    · exact ⟨⟨[], by simp [hl], Or.inl rfl⟩, Or.inr ⟨_, rfl⟩⟩

/-- Claim C9: for every authenticated chat request with a non-empty message
list, the log of the authenticated user gains the request's last message
(stamped with the current clock) immediately after its previous contents —
and it gains it in every outcome, including upstream failures, i.e. before
the upstream call is consulted; any further gained message is a single
relay-produced assistant turn; and whenever an upstream call is made its
payload is the full converted request message list, so earlier
caller-supplied messages go upstream but are never themselves persisted. -/
theorem chat_persists_only_last_message (request : ChatRequest) (username : String)
    (sb : StreamOutcome) (cb : Except String NSCompletion) (hist : HistoryMap)
    (clock : Nat) (lastMsg : ChatMessage)
    (hlast : request.messages.getLast? = some lastMsg) :
    (∃ tail,
      dget (chat request username sb cb hist clock).2.1 username =
        some ((dget hist username).getD [] ++
          ({ role := lastMsg.role, content := lastMsg.content,
             timestamp := some clock } : ChatMessage) :: tail) ∧
      (tail = [] ∨ ∃ c ts, tail =
        [{ role := "assistant", content := c, timestamp := some ts }])) ∧
    ((chat request username sb cb hist clock).2.2.2 = .noCall ∨
     ∃ mdl,
       (chat request username sb cb hist clock).2.2.2 =
           .streamingCall mdl (convert_messages_for_api request.messages) ∨
       (chat request username sb cb hist clock).2.2.2 =
           .completionCall mdl (convert_messages_for_api request.messages)) := by
  have hkey : dget (ensureKey hist username) username =
      some ((dget hist username).getD []) := dget_ensureKey_self hist username
  have hkey2 : dget (dset (ensureKey hist username) username
      ((dget (ensureKey hist username) username).getD [] ++
        [{ role := lastMsg.role, content := lastMsg.content,
           timestamp := some clock }])) username =
      some ((dget hist username).getD [] ++
        [{ role := lastMsg.role, content := lastMsg.content,
           timestamp := some clock }]) := by
    rw [dget_dset_self, hkey, Option.getD_some]
  unfold chat
  simp only [hlast]
  by_cases hs : request.stream = some true
  · simp only [if_pos hs]
    obtain ⟨⟨tail, htail, hshape⟩, hcall⟩ :=
      gsr_log_effect request username sb _ (clock + 1) _ hkey2
    constructor
    · exact ⟨tail, by simpa using htail, hshape⟩
    · rcases hcall with hc | ⟨mdl, hc⟩
      · exact Or.inl (by simpa using hc)
      · exact Or.inr ⟨mdl, Or.inl (by simpa using hc)⟩
  · simp only [if_neg hs]
    split
    · exact ⟨⟨[], by simpa using hkey2, Or.inl rfl⟩, Or.inl rfl⟩
    · split
      · exact ⟨⟨[], by simpa using hkey2, Or.inl rfl⟩, Or.inr ⟨_, Or.inr rfl⟩⟩
      · split
        · exact ⟨⟨[], by simpa using hkey2, Or.inl rfl⟩, Or.inr ⟨_, Or.inr rfl⟩⟩
        · rename_i choice0 restChoices heq
          exact ⟨⟨[{ role := "assistant", content := choice0.messageContent.getD "",
                     timestamp := some (clock + 1) }],
            by rw [dget_dset_self, hkey2]; simp, Or.inr ⟨_, _, rfl⟩⟩,
            Or.inr ⟨_, Or.inr rfl⟩⟩

/-- Witness for C9: a two-message request (an earlier system turn and a user
turn) over a failing upstream persists exactly the last message and sends
both messages upstream. -/
theorem chat_persists_only_last_message_witness :
    ({ messages := [{ role := "system", content := "be brief", timestamp := none },
                    { role := "user", content := "hello", timestamp := none }],
       model := some "qwen3-max", stream := some false } : ChatRequest).messages.getLast? =
      some { role := "user", content := "hello", timestamp := none } ∧
    ((∃ tail,
      dget (chat
          { messages := [{ role := "system", content := "be brief", timestamp := none },
                         { role := "user", content := "hello", timestamp := none }],
            model := some "qwen3-max", stream := some false }
          "alice" (.ok []) (.error "connection reset") [] 9).2.1 "alice" =
        some ((dget ([] : HistoryMap) "alice").getD [] ++
          ({ role := ({ role := "user", content := "hello",
                        timestamp := none } : ChatMessage).role,
             content := ({ role := "user", content := "hello",
                           timestamp := none } : ChatMessage).content,
             timestamp := some 9 } : ChatMessage) :: tail) ∧
      (tail = [] ∨ ∃ c ts, tail =
        [{ role := "assistant", content := c, timestamp := some ts }])) ∧
    ((chat
          { messages := [{ role := "system", content := "be brief", timestamp := none },
                         { role := "user", content := "hello", timestamp := none }],
            model := some "qwen3-max", stream := some false }
          "alice" (.ok []) (.error "connection reset") [] 9).2.2.2 = .noCall ∨
     ∃ mdl,
       (chat
          { messages := [{ role := "system", content := "be brief", timestamp := none },
                         { role := "user", content := "hello", timestamp := none }],
            model := some "qwen3-max", stream := some false }
          "alice" (.ok []) (.error "connection reset") [] 9).2.2.2 =
           .streamingCall mdl (convert_messages_for_api
             ({ messages := [{ role := "system", content := "be brief", timestamp := none },
                             { role := "user", content := "hello", timestamp := none }],
                model := some "qwen3-max", stream := some false } : ChatRequest).messages) ∨
       (chat
          { messages := [{ role := "system", content := "be brief", timestamp := none },
                         { role := "user", content := "hello", timestamp := none }],
            model := some "qwen3-max", stream := some false }
          "alice" (.ok []) (.error "connection reset") [] 9).2.2.2 =
           .completionCall mdl (convert_messages_for_api
             ({ messages := [{ role := "system", content := "be brief", timestamp := none },
                             { role := "user", content := "hello", timestamp := none }],
                model := some "qwen3-max", stream := some false } : ChatRequest).messages))) :=
  ⟨rfl,
   chat_persists_only_last_message
     { messages := [{ role := "system", content := "be brief", timestamp := none },
                    { role := "user", content := "hello", timestamp := none }],
       model := some "qwen3-max", stream := some false }
     "alice" (.ok []) (.error "connection reset") [] 9
     { role := "user", content := "hello", timestamp := none } rfl⟩

/-- Claim C6: a non-streaming chat completion whose upstream response has no
choices fails with the dedicated 500 "AI模型返回了空响应" error instead of
returning an empty answer, and the conversation log gains only the user
turn — no assistant message is appended. -/
theorem empty_completion_error (request : ChatRequest) (username : String)
    (sb : StreamOutcome) (response : NSCompletion) (hist : HistoryMap)
    (clock : Nat) (m : String) (lastMsg : ChatMessage)
    (hlast : request.messages.getLast? = some lastMsg)
    (hstream : request.stream ≠ some true)
    (hm : request.model = some m) (hm2 : m ≠ "")
    (hchoices : response.choices = []) :
    chat request username sb (.ok response) hist clock =
      (.error { statusCode := 500, detail := "AI模型返回了空响应" },
       appendToLog hist username
         { role := lastMsg.role, content := lastMsg.content, timestamp := some clock },
       clock + 1,
       .completionCall m (convert_messages_for_api request.messages)) := by
  unfold chat
  simp only [hlast, if_neg hstream, resolveModel_ok hm hm2, hchoices]
  rfl

/-- Witness for C6: a zero-choice response to a one-message non-streaming
request produces the 500 error and leaves only the user turn in the log. -/
theorem empty_completion_error_witness :
    ({ messages := [{ role := "user", content := "hello", timestamp := none }],
       model := some "qwen3-max", stream := some false } : ChatRequest).stream ≠
      some true ∧
    chat
        { messages := [{ role := "user", content := "hello", timestamp := none }],
          model := some "qwen3-max", stream := some false }
        "alice" (.ok []) (.ok { choices := [], model := "qwen3-max", usage := none })
        [] 0 =
      (.error { statusCode := 500, detail := "AI模型返回了空响应" },
       [("alice", [{ role := "user", content := "hello", timestamp := some 0 }])],
       1,
       .completionCall "qwen3-max" [("user", "hello")]) :=
  ⟨by decide, by
    have h := empty_completion_error
      { messages := [{ role := "user", content := "hello", timestamp := none }],
        model := some "qwen3-max", stream := some false }
      "alice" (.ok []) { choices := [], model := "qwen3-max", usage := none }
      [] 0 "qwen3-max" { role := "user", content := "hello", timestamp := none }
      rfl (by decide) rfl (by decide) rfl
    exact h.trans (by decide)⟩

/-- Witness for C8: soft-deleting root on the stock database keeps the
record, flips disabled, and removes nothing. -/
theorem soft_delete_preserves_record_witness :
    dget fake_users_db rootRecord.username = some rootRecord ∧
    delete_user_account fake_users_db rootRecord =
      some ({ rootRecord with disabled := some true },
            dset fake_users_db rootRecord.username
              { rootRecord with disabled := some true }) ∧
    dget (dset fake_users_db rootRecord.username
        { rootRecord with disabled := some true }) rootRecord.username =
      some { rootRecord with disabled := some true } :=
  ⟨by decide,
   (soft_delete_preserves_record fake_users_db rootRecord rootRecord (by decide) rfl).1,
   (soft_delete_preserves_record fake_users_db rootRecord rootRecord (by decide) rfl).2.1⟩

end ChatAI
